import Mathlib

/-!
Verification of the target-resolution and toolchain-wrapper-generation
engine of the rust-gnark build script (`crates/build.rs`).

The build script is embedded shallowly: reads of the process environment
(`RUST_GNARK_GO_ENVS`, `HOST`, `ANDROID_NDK_HOME`, `ANDROID_NDK_ROOT`),
the build machine's OS identity (the `cfg!(target_os = "macos")` test) and
filesystem-existence queries are gathered into an explicit `BuildEnv`
record that is passed to every function.  Wrapper-script creation is
modelled by returning the script (name, path, content, permission mode)
as data; warnings are modelled as a boolean flag in the result.
-/

/-- Rust `char_prefix_matches pat hay`: `pat` is a prefix of `hay`
(character-list level). -/
def charPrefixMatches : List Char → List Char → Bool
  | [], _ => true
  | _ :: _, [] => false
  | p :: ps, h :: hs => p == h && charPrefixMatches ps hs

/-- `pat` occurs as a contiguous subsequence of `hay`
(character-list level). -/
def charListHasInfix (pat : List Char) : List Char → Bool
  | [] => charPrefixMatches pat []
  | h :: hs => charPrefixMatches pat (h :: hs) || charListHasInfix pat hs

/-- Model of Rust `str::contains` with a string pattern. -/
def strContains (s pat : String) : Bool :=
  charListHasInfix pat.toList s.toList

/-- Model of Rust `str::starts_with` with a string pattern. -/
def strStarts (s pat : String) : Bool :=
  charPrefixMatches pat.toList s.toList

/-- Model of Rust `str::ends_with`: `pat` is a suffix of `s`. -/
def strEndsWith (s pat : String) : Bool :=
  charPrefixMatches pat.toList.reverse s.toList.reverse

/-- Model of Rust `str::split(c)`: split a character list at every
occurrence of `c`.  Splitting the empty list yields one empty piece, as
in Rust. -/
def splitChar (c : Char) : List Char → List (List Char)
  | [] => [[]]
  | h :: t =>
    if h == c then [] :: splitChar c t
    else
      match splitChar c t with
      | [] => [[h]]
      | x :: xs => (h :: x) :: xs

/-- Model of Rust `str::split_once(c)`: split at the first occurrence of
`c`, returning the parts before and after it, or `none` when `c` does not
occur. -/
def splitOnceChar (c : Char) : List Char → Option (List Char × List Char)
  | [] => none
  | h :: t =>
    if h == c then some ([], t)
    else (splitOnceChar c t).map (fun p => (h :: p.1, p.2))

/-- All process-level inputs the build script reads, made explicit.
`goEnvsVar` and `hostVar` model `env::var(..).unwrap_or_default()` (an
unset variable reads as `""`); the two NDK variables keep the set/unset
distinction because the code observes it through `Result::ok`. -/
structure BuildEnv where
  goEnvsVar : String
  hostVar : String
  ndkHome : Option String
  ndkRoot : Option String
  hostIsMacos : Bool
  pathExists : String → Bool

/-- An on-disk wrapper script as data: `mode` is the Unix permission mode
the script carries after creation (the source chmods to `0o755`). -/
structure WrapperScript where
  name : String
  path : String
  content : String
  mode : Nat
deriving DecidableEq

/-- Owner-execute permission bit of a wrapper script (bit 6, `0o100`). -/
def ownerExecutable (w : WrapperScript) : Bool :=
  w.mode.testBit 6

/-- Result of compiler detection: the optional compiler path, the wrapper
scripts written while detecting, and whether a cargo warning was
printed. -/
structure CcResult where
  cc : Option String
  scripts : List WrapperScript
  warned : Bool
deriving DecidableEq

/-- Result of `detect_go_cross_env`: the environment-variable list plus
the same effect record as `CcResult`. -/
structure GoEnvResult where
  envs : List (String × String)
  scripts : List WrapperScript
  warned : Bool
deriving DecidableEq

/-- `parse_go_envs` from `build.rs`, with the value of the
`RUST_GNARK_GO_ENVS` variable passed explicitly: empty string maps to the
empty list; otherwise split on `;`, split each piece once on its first
`=`, dropping pieces without an `=` (the `filter_map`/`split_once`
combination). -/
def parse_go_envs (envsStr : String) : List (String × String) :=
  if envsStr = "" then []
  else
    (splitChar ';' envsStr.toList).filterMap (fun pair =>
      (splitOnceChar '=' pair).map (fun kv => (String.mk kv.1, String.mk kv.2)))

/-- The GOOS/GOARCH classification arm of `detect_go_cross_env`: the
ordered substring tests on the target triple, with the architecture
derived from an `aarch64` prefix test in each arm; `none` is the
`_ => return Vec::new()` unknown-target arm. -/
def goosGoarch (target : String) : Option (String × String) :=
  if strContains target "apple-ios" then
    some ("ios", if strStarts target "aarch64" then "arm64" else "amd64")
  else if strContains target "apple-darwin" then
    some ("darwin", if strStarts target "aarch64" then "arm64" else "amd64")
  else if strContains target "linux-android" then
    some ("android", if strStarts target "aarch64" then "arm64" else "amd64")
  else if strContains target "linux-gnu" then
    some ("linux", if strStarts target "aarch64" then "arm64" else "amd64")
  else none

/-- `create_apple_cc_wrapper` from `build.rs`: builds the per-SDK script
name `cc_wrapper_<sdk>.sh`, writes the `xcrun` forwarding script at
`out_dir/<name>` and chmods it to `0o755` (the Unix branch of the
`cfg(unix)` block).  Returns the script artifact together with the path
the function returns to its caller. -/
def create_apple_cc_wrapper (out_dir sdk clang_target : String) :
    WrapperScript × String :=
  let script_name := "cc_wrapper_" ++ sdk ++ ".sh"
  let script_path := out_dir ++ "/" ++ script_name
  let script_content :=
    "#!/bin/sh\nexec xcrun -sdk " ++ sdk ++ " clang -target " ++ clang_target
      ++ " \"$@\"\n"
  (⟨script_name, script_path, script_content, 0o755⟩, script_path)

/-- `detect_android_cc` from `build.rs`: reads `ANDROID_NDK_HOME` then
`ANDROID_NDK_ROOT` (the `or_else`/`ok()?` chain returns `none` silently
when neither is set), picks the host tag from the build machine's OS,
maps the two supported android triples to their API-21 clang names, and
checks the composed path on disk, warning (second component `true`) and
returning no compiler when the file is missing. -/
def detect_android_cc (e : BuildEnv) (target : String) :
    Option String × Bool :=
  match (match e.ndkHome with | some v => some v | none => e.ndkRoot) with
  | none => (none, false)
  | some ndk =>
    let host_tag := if e.hostIsMacos then "darwin-x86_64" else "linux-x86_64"
    match
      (if target = "aarch64-linux-android" then
        some "aarch64-linux-android21-clang"
      else if target = "x86_64-linux-android" then
        some "x86_64-linux-android21-clang"
      else none) with
    | none => (none, false)
    | some clang_name =>
      let cc := ndk ++ "/toolchains/llvm/prebuilt/" ++ host_tag ++ "/bin/"
        ++ clang_name
      if e.pathExists cc then (some cc, false) else (none, true)

/-- `detect_cc` from `build.rs`: the ordered match on the target triple —
the three Apple iOS literals synthesize wrapper scripts, triples
containing `linux-android` defer to the NDK locator, the literal
`aarch64-unknown-linux-gnu` returns the fixed cross-gcc only when the
`HOST` variable contains `x86_64`, and everything else returns no
compiler. -/
def detect_cc (e : BuildEnv) (target out_dir : String) : CcResult :=
  if target = "aarch64-apple-ios" then
    let w := create_apple_cc_wrapper out_dir "iphoneos" "arm64-apple-ios13.0"
    ⟨some w.2, [w.1], false⟩
  else if target = "aarch64-apple-ios-sim" then
    let w := create_apple_cc_wrapper out_dir "iphonesimulator"
      "arm64-apple-ios13.0-simulator"
    ⟨some w.2, [w.1], false⟩
  else if target = "x86_64-apple-ios" then
    let w := create_apple_cc_wrapper out_dir "iphonesimulator"
      "x86_64-apple-ios13.0-simulator"
    ⟨some w.2, [w.1], false⟩
  else if strContains target "linux-android" then
    let r := detect_android_cc e target
    ⟨r.1, [], r.2⟩
  else if target = "aarch64-unknown-linux-gnu" then
    if strContains e.hostVar "x86_64" then
      ⟨some "aarch64-linux-gnu-gcc", [], false⟩
    else ⟨none, [], false⟩
  else ⟨none, [], false⟩

/-- `detect_go_cross_env` from `build.rs`: manual `RUST_GNARK_GO_ENVS`
entries win outright; otherwise classify the target, returning an empty
environment for unknown targets, and for recognized targets emit GOOS and
GOARCH plus CC when `detect_cc` found a compiler. -/
def detect_go_cross_env (e : BuildEnv) (target out_dir : String) :
    GoEnvResult :=
  let manual := parse_go_envs e.goEnvsVar
  if manual ≠ [] then ⟨manual, [], false⟩
  else
    match goosGoarch target with
    | none => ⟨[], [], false⟩
    | some (goos, goarch) =>
      let r := detect_cc e target out_dir
      ⟨[("GOOS", goos), ("GOARCH", goarch)] ++
        (match r.cc with | some cc => [("CC", cc)] | none => []),
        r.scripts, r.warned⟩

/-- The build-mode selection at the top of `main`: targets containing
`linux-android` build `c-shared` into `libgnark.so`; all others build
`c-archive` into `libgnark.a`. -/
def buildmode_lib_name (target : String) : String × String :=
  if strContains target "linux-android" then ("c-shared", "libgnark.so")
  else ("c-archive", "libgnark.a")

/-- `link_platform_deps` from `build.rs`: the ordered substring tests on
the raw target string choosing the `cargo:rustc-link-lib` directives. -/
def link_platform_deps (target : String) : List String :=
  if strContains target "apple" then
    ["framework=CoreFoundation", "framework=Security", "resolv"]
  else if strContains target "android" then ["c", "log"]
  else ["pthread", "resolv"]

/-- Model of `std::fs::write` on a path-to-content map: writing a wrapper
script replaces whatever was stored at its path. -/
def writeScript (fs : String → Option String) (w : WrapperScript) :
    String → Option String :=
  fun p => if p = w.path then some w.content else fs p

/-- A process state with no override string, no NDK variables, an unset
`HOST`, a Linux build machine and an empty filesystem. -/
def envEmpty : BuildEnv :=
  ⟨"", "", none, none, false, fun _ => false⟩

/-- Same as `envEmpty` except the override string is junk that parses to
nothing (no `=` in any piece). -/
def envJunk : BuildEnv :=
  ⟨"junk;nonsense", "", none, none, false, fun _ => false⟩

/-- Empty override, `HOST` reporting an `x86_64` build machine. -/
def hostEnvA : BuildEnv :=
  ⟨"", "x86_64-unknown-linux-gnu", none, none, false, fun _ => false⟩

/-- Empty override, `HOST` reporting an `aarch64` build machine. -/
def hostEnvB : BuildEnv :=
  ⟨"", "aarch64-apple-darwin", none, none, false, fun _ => false⟩

/-- A process state whose override string carries three well-formed
pairs. -/
def envOverride : BuildEnv :=
  ⟨"GOOS=ios;GOARCH=arm64;CC=/x", "", none, none, false, fun _ => false⟩

example : parse_go_envs "" = [] := by decide

example : parse_go_envs "GOOS=ios;GOARCH=arm64;CC=/x" =
    [("GOOS", "ios"), ("GOARCH", "arm64"), ("CC", "/x")] := by decide

example : parse_go_envs "junk;nonsense" = [] := by decide

example : goosGoarch "x86_64-unknown-linux-musl" = none := by decide

example : goosGoarch "aarch64-apple-darwin" = some ("darwin", "arm64") := by
  decide

example : detect_go_cross_env hostEnvA "aarch64-unknown-linux-gnu" "/out" =
    ⟨[("GOOS", "linux"), ("GOARCH", "arm64"),
      ("CC", "aarch64-linux-gnu-gcc")], [], false⟩ := by decide

example : detect_go_cross_env hostEnvB "aarch64-unknown-linux-gnu" "/out" =
    ⟨[("GOOS", "linux"), ("GOARCH", "arm64")], [], false⟩ := by decide

/-! ### Helper lemmas -/

theorem splitOnceChar_eq_none (c : Char) (l : List Char) :
    splitOnceChar c l = none ↔ l.any (fun x => x == c) = false := by
  induction l with
  | nil => simp [splitOnceChar]
  | cons h t ih =>
    by_cases hc : h == c
    · simp [splitOnceChar, hc]
    · simp only [splitOnceChar, hc, if_neg, Bool.false_eq_true, not_false_iff,
        ite_false, Option.map_eq_none', List.any_cons, Bool.or_eq_false_iff]
      constructor
      · intro hn
        exact ⟨by simp [hc], (ih.1 hn)⟩
      · intro hn
        exact ih.2 hn.2

theorem splitOnceChar_eq_some_of_mem (c : Char) (l : List Char)
    (h : l.any (fun x => x == c) = true) :
    splitOnceChar c l =
      some (l.takeWhile (fun x => x != c),
        (l.dropWhile (fun x => x != c)).drop 1) := by
  induction l with
  | nil => simp at h
  | cons hd t ih =>
    by_cases hc : hd == c
    · simp [splitOnceChar, List.takeWhile, List.dropWhile, hc, bne]
    · have ht : t.any (fun x => x == c) = true := by
        simpa [hc] using h
      simp [splitOnceChar, List.takeWhile, List.dropWhile, hc, bne, ih ht]

theorem filterMap_splitOnce (L : List (List Char)) :
    L.filterMap (fun pair => (splitOnceChar '=' pair).map
        (fun kv => (String.mk kv.1, String.mk kv.2))) =
      (L.filter (fun e => e.any (fun x => x == '='))).map
        (fun e => (String.mk (e.takeWhile (fun x => x != '=')),
          String.mk ((e.dropWhile (fun x => x != '=')).drop 1))) := by
  induction L with
  | nil => rfl
  | cons e t ih =>
    by_cases he : e.any (fun x => x == '=') = true
    · rw [List.filterMap_cons, splitOnceChar_eq_some_of_mem _ _ he]
      simp [List.filter_cons, he, ih]
    · have hn : splitOnceChar '=' e = none :=
        (splitOnceChar_eq_none _ _).2
          (by simp only [Bool.not_eq_true] at he; exact he)
      rw [List.filterMap_cons, hn]
      simp [List.filter_cons, he, ih]

theorem detect_cc_host_only (e e₂ : BuildEnv) (target out_dir : String)
    (hh : e.hostVar = e₂.hostVar) (h₁ : e.ndkHome = e₂.ndkHome)
    (h₂ : e.ndkRoot = e₂.ndkRoot) (h₃ : e.hostIsMacos = e₂.hostIsMacos)
    (h₄ : e.pathExists = e₂.pathExists) :
    detect_cc e target out_dir = detect_cc e₂ target out_dir := by
  unfold detect_cc detect_android_cc
  rw [hh, h₁, h₂, h₃, h₄]

/-! ### Claim theorems -/

/-- C1: for every override string whose parse yields at least one
well-formed KEY=VALUE pair, the assembled environment equals exactly the
parsed override mapping for every target identifier and scratch
directory; no wrapper script is written and no warning is emitted, i.e.
the classifier and compiler locator contribute nothing to the result. -/
theorem c1_override_wins (e : BuildEnv) (target out_dir : String)
    (h : parse_go_envs e.goEnvsVar ≠ []) :
    detect_go_cross_env e target out_dir =
      ⟨parse_go_envs e.goEnvsVar, [], false⟩ := by
  simp [detect_go_cross_env, h]

/-- Witness for C1 at the override string `GOOS=ios;GOARCH=arm64;CC=/x`
and an arbitrary target identifier. -/
theorem c1_override_wins_witness :
    detect_go_cross_env envOverride "any-target-at-all" "/out" =
      ⟨[("GOOS", "ios"), ("GOARCH", "arm64"), ("CC", "/x")], [], false⟩ := by
  rw [c1_override_wins envOverride "any-target-at-all" "/out" (by decide)]
  decide

/-- C3: the build mode is `c-shared` with a `.so`-suffixed artifact name
exactly when the target contains `linux-android`; every other target
(recognized or not) gets `c-archive` and a `.a`-suffixed name. -/
theorem c3_android_shared (target : String) :
    ((buildmode_lib_name target).1 = "c-shared" ↔
      strContains target "linux-android" = true) ∧
    (strEndsWith (buildmode_lib_name target).2 ".so" = true ↔
      strContains target "linux-android" = true) ∧
    ((buildmode_lib_name target).1 = "c-archive" ↔
      strContains target "linux-android" = false) ∧
    (strEndsWith (buildmode_lib_name target).2 ".a" = true ↔
      strContains target "linux-android" = false) := by
  cases h : strContains target "linux-android" <;>
    simp [buildmode_lib_name, h] <;> decide

/-- C6: the override parser maps the empty string to the empty mapping;
a non-empty string is split at semicolons, every piece containing an `=`
is kept and split at its first `=` into key and value, and every piece
lacking an `=` is dropped. -/
theorem c6_parse_leniency (s : String) :
    (s = "" → parse_go_envs s = []) ∧
    (s ≠ "" → parse_go_envs s =
      ((splitChar ';' s.toList).filter
          (fun e => e.any (fun x => x == '='))).map
        (fun e => (String.mk (e.takeWhile (fun x => x != '=')),
          String.mk ((e.dropWhile (fun x => x != '=')).drop 1)))) := by
  constructor
  · intro h
    simp [parse_go_envs, h]
  · intro h
    simp [parse_go_envs, h, filterMap_splitOnce]

/-- Witness for C6: the empty string parses to nothing, and a string
with two well-formed pairs around a malformed piece keeps exactly the
well-formed ones. -/
theorem c6_parse_leniency_witness :
    parse_go_envs "" = [] ∧
    parse_go_envs "A=1;junk;B=2" =
      ((splitChar ';' "A=1;junk;B=2".toList).filter
          (fun e => e.any (fun x => x == '='))).map
        (fun e => (String.mk (e.takeWhile (fun x => x != '=')),
          String.mk ((e.dropWhile (fun x => x != '=')).drop 1))) :=
  ⟨(c6_parse_leniency "").1 rfl, (c6_parse_leniency "A=1;junk;B=2").2 (by decide)⟩

/-- C7: for every identifier the classifier recognizes, the derived
architecture marker is `arm64` exactly when the identifier starts with
`aarch64`, and `amd64` otherwise. -/
theorem c7_arch_derivation (target goos goarch : String)
    (h : goosGoarch target = some (goos, goarch)) :
    goarch = if strStarts target "aarch64" then "arm64" else "amd64" := by
  unfold goosGoarch at h
  split_ifs at h <;> simp_all

/-- Witness for C7 at the recognized identifier `aarch64-apple-ios`. -/
theorem c7_arch_derivation_witness :
    "arm64" =
      if strStarts "aarch64-apple-ios" "aarch64" then "arm64" else "amd64" :=
  c7_arch_derivation "aarch64-apple-ios" "ios" "arm64" (by decide)

/-- Counterexample to C2: with the empty override string and the same
target identifier `aarch64-unknown-linux-gnu`, two process states that
differ only in the `HOST` variable produce different assembled
environments, so the result is not a function of the target identifier
alone. -/
theorem c2_pure_function_counterexample :
    hostEnvA.goEnvsVar = "" ∧ hostEnvB.goEnvsVar = "" ∧
    detect_go_cross_env hostEnvA "aarch64-unknown-linux-gnu" "/out" ≠
      detect_go_cross_env hostEnvB "aarch64-unknown-linux-gnu" "/out" := by
  decide

/-- C2 (amended): whenever the override string parses to nothing, the
assembled recipe is a pure function of the target identifier together
with the ambient host state (the `HOST` variable, the two NDK variables,
the build machine's OS identity and the filesystem); with the host state
fixed, any two runs on the same identifier produce identical results. -/
theorem c2_pure_function_amended (e e₂ : BuildEnv) (target out_dir : String)
    (hg : parse_go_envs e.goEnvsVar = [])
    (hg₂ : parse_go_envs e₂.goEnvsVar = [])
    (hh : e.hostVar = e₂.hostVar) (h₁ : e.ndkHome = e₂.ndkHome)
    (h₂ : e.ndkRoot = e₂.ndkRoot) (h₃ : e.hostIsMacos = e₂.hostIsMacos)
    (h₄ : e.pathExists = e₂.pathExists) :
    detect_go_cross_env e target out_dir =
      detect_go_cross_env e₂ target out_dir := by
  unfold detect_go_cross_env
  rw [hg, hg₂, detect_cc_host_only e e₂ target out_dir hh h₁ h₂ h₃ h₄]

/-- Witness for the amended C2: an empty override string and an override
string made only of malformed pieces give the same recipe on the same
identifier and host state. -/
theorem c2_pure_function_amended_witness :
    detect_go_cross_env envEmpty "aarch64-apple-darwin" "/out" =
      detect_go_cross_env envJunk "aarch64-apple-darwin" "/out" :=
  c2_pure_function_amended envEmpty envJunk "aarch64-apple-darwin" "/out"
    (by decide) (by decide) rfl rfl rfl rfl rfl

/-- Counterexample to C4: the identifier `"apple"` classifies as unknown
yet its link directives are the Apple set, not `{pthread, resolv}`, so
link-directive emission is not a function of the classified OS family. -/
theorem c4_link_directives_counterexample :
    goosGoarch "apple" = none ∧
    link_platform_deps "apple" ≠ ["pthread", "resolv"] := by
  decide

/-- C4 (amended): link-directive emission is a pure, total function of
the raw target identifier keyed on substring containment: identifiers
containing `apple` get exactly the CoreFoundation framework, Security
framework and resolv; of the rest, identifiers containing `android` get
exactly c and log; all remaining identifiers (in particular every
identifier that classifies as unknown and contains neither substring)
get exactly pthread and resolv. -/
theorem c4_link_directives_amended (target : String) :
    (strContains target "apple" = true →
      link_platform_deps target =
        ["framework=CoreFoundation", "framework=Security", "resolv"]) ∧
    (strContains target "apple" = false →
      strContains target "android" = true →
      link_platform_deps target = ["c", "log"]) ∧
    (strContains target "apple" = false →
      strContains target "android" = false →
      link_platform_deps target = ["pthread", "resolv"]) := by
  refine ⟨fun h => ?_, fun h₁ h₂ => ?_, fun h₁ h₂ => ?_⟩ <;>
    simp [link_platform_deps, *]

/-- Witness for the amended C4 at an Apple identifier. -/
theorem c4_link_directives_amended_witness :
    link_platform_deps "aarch64-apple-ios" =
      ["framework=CoreFoundation", "framework=Security", "resolv"] :=
  (c4_link_directives_amended "aarch64-apple-ios").1 (by decide)

/-- Counterexample to C5: with neither NDK variable set, android
compiler resolution returns no compiler but does NOT emit the warning
the claim asserts; the `ok()?` chain returns silently. -/
theorem c5_ndk_unset_counterexample :
    envEmpty.ndkHome = none ∧ envEmpty.ndkRoot = none ∧
    ¬ (detect_android_cc envEmpty "aarch64-linux-android").2 = true := by
  decide

/-- C5 (amended): when neither NDK-location variable is set, compiler
resolution for any android target returns none without emitting any
warning, and the build is not aborted (the locator returns normally; a
warning is only printed when an NDK root is set but the computed clang
path is missing on disk). -/
theorem c5_ndk_unset_amended (e : BuildEnv) (target : String)
    (h₁ : e.ndkHome = none) (h₂ : e.ndkRoot = none) :
    detect_android_cc e target = (none, false) := by
  simp [detect_android_cc, h₁, h₂]

/-- Witness for the amended C5 at the android device triple with no NDK
variables set. -/
theorem c5_ndk_unset_amended_witness :
    detect_android_cc envEmpty "aarch64-linux-android" = (none, false) :=
  c5_ndk_unset_amended envEmpty "aarch64-linux-android" rfl rfl

/-- C8: with no effective override, an unknown identifier yields the
empty environment, and a recognized identifier yields exactly GOOS and
GOARCH plus CC exactly when the compiler locator returned a path — no
other variables appear. -/
theorem c8_recipe_shape (e : BuildEnv) (target out_dir : String)
    (h : parse_go_envs e.goEnvsVar = []) :
    (goosGoarch target = none →
      detect_go_cross_env e target out_dir = ⟨[], [], false⟩) ∧
    (∀ goos goarch, goosGoarch target = some (goos, goarch) →
      (detect_go_cross_env e target out_dir).envs =
        [("GOOS", goos), ("GOARCH", goarch)] ++
          (match (detect_cc e target out_dir).cc with
            | some cc => [("CC", cc)]
            | none => [])) := by
  constructor
  · intro hg
    simp [detect_go_cross_env, h, hg]
  · intro goos goarch hg
    simp [detect_go_cross_env, h, hg]

/-- Witness for C8: the unrecognized `x86_64-unknown-linux-musl` gets an
empty recipe and the recognized `aarch64-apple-darwin` gets exactly GOOS
and GOARCH (the locator returns no compiler there). -/
theorem c8_recipe_shape_witness :
    detect_go_cross_env envEmpty "x86_64-unknown-linux-musl" "/out" =
      ⟨[], [], false⟩ ∧
    (detect_go_cross_env envEmpty "aarch64-apple-darwin" "/out").envs =
      [("GOOS", "darwin"), ("GOARCH", "arm64")] := by
  constructor
  · exact (c8_recipe_shape envEmpty "x86_64-unknown-linux-musl" "/out"
      (by decide)).1 (by decide)
  · rw [(c8_recipe_shape envEmpty "aarch64-apple-darwin" "/out"
      (by decide)).2 "darwin" "arm64" (by decide)]
    decide

/-- C9: wrapper scripts for two distinct SDK identifiers in the same
scratch directory have distinct names (and distinct paths), and each
script carries the owner-execute bit after creation. -/
theorem c9_wrapper_names (out_dir sdk₁ sdk₂ t₁ t₂ : String)
    (h : sdk₁ ≠ sdk₂) :
    (create_apple_cc_wrapper out_dir sdk₁ t₁).1.name ≠
      (create_apple_cc_wrapper out_dir sdk₂ t₂).1.name ∧
    (create_apple_cc_wrapper out_dir sdk₁ t₁).1.path ≠
      (create_apple_cc_wrapper out_dir sdk₂ t₂).1.path ∧
    ownerExecutable (create_apple_cc_wrapper out_dir sdk₁ t₁).1 = true ∧
    ownerExecutable (create_apple_cc_wrapper out_dir sdk₂ t₂).1 = true := by
  have key : ∀ a b : String,
      "cc_wrapper_" ++ a ++ ".sh" = "cc_wrapper_" ++ b ++ ".sh" → a = b := by
    intro a b hab
    have hd := congrArg String.data hab
    simp only [String.data_append] at hd
    exact String.ext (List.append_cancel_left (List.append_cancel_right hd))
  refine ⟨fun hn => h (key _ _ hn), fun hp => ?_,
    by show Nat.testBit 493 6 = true; decide,
    by show Nat.testBit 493 6 = true; decide⟩
  apply h
  apply key
  have hd := congrArg String.data hp
  simp only [String.data_append] at hd
  exact String.ext (by simpa [String.data_append] using
    List.append_cancel_left hd)

/-- Witness for C9 at the two Apple SDK names used by the build
script. -/
theorem c9_wrapper_names_witness :
    (create_apple_cc_wrapper "/out" "iphoneos" "arm64-apple-ios13.0").1.name ≠
      (create_apple_cc_wrapper "/out" "iphonesimulator"
        "arm64-apple-ios13.0-simulator").1.name :=
  (c9_wrapper_names "/out" "iphoneos" "iphonesimulator" "arm64-apple-ios13.0"
    "arm64-apple-ios13.0-simulator" (by decide)).1

/-- C10: the wrapper path depends only on the SDK identifier, so the two
simulator targets `aarch64-apple-ios-sim` and `x86_64-apple-ios` resolve
to the same wrapper path while their script contents differ in the clang
target triple; writing the second script after the first therefore
overwrites the first's content at that path. -/
theorem c10_simulator_overwrite (e : BuildEnv) (out_dir : String)
    (fs : String → Option String) :
    (detect_cc e "aarch64-apple-ios-sim" out_dir).scripts =
      [(create_apple_cc_wrapper out_dir "iphonesimulator"
        "arm64-apple-ios13.0-simulator").1] ∧
    (detect_cc e "x86_64-apple-ios" out_dir).scripts =
      [(create_apple_cc_wrapper out_dir "iphonesimulator"
        "x86_64-apple-ios13.0-simulator").1] ∧
    (detect_cc e "aarch64-apple-ios-sim" out_dir).cc =
      (detect_cc e "x86_64-apple-ios" out_dir).cc ∧
    (create_apple_cc_wrapper out_dir "iphonesimulator"
        "arm64-apple-ios13.0-simulator").1.path =
      (create_apple_cc_wrapper out_dir "iphonesimulator"
        "x86_64-apple-ios13.0-simulator").1.path ∧
    (create_apple_cc_wrapper out_dir "iphonesimulator"
        "arm64-apple-ios13.0-simulator").1.content ≠
      (create_apple_cc_wrapper out_dir "iphonesimulator"
        "x86_64-apple-ios13.0-simulator").1.content ∧
    writeScript
        (writeScript fs (create_apple_cc_wrapper out_dir "iphonesimulator"
          "arm64-apple-ios13.0-simulator").1)
        ((create_apple_cc_wrapper out_dir "iphonesimulator"
          "x86_64-apple-ios13.0-simulator").1)
        ((create_apple_cc_wrapper out_dir "iphonesimulator"
          "arm64-apple-ios13.0-simulator").1.path) =
      some ((create_apple_cc_wrapper out_dir "iphonesimulator"
        "x86_64-apple-ios13.0-simulator").1.content) := by
  refine ⟨rfl, rfl, rfl, rfl, ?_, ?_⟩
  · intro hc
    have hd := congrArg String.data hc
    simp [create_apple_cc_wrapper, String.data_append] at hd
  · simp [writeScript, create_apple_cc_wrapper]
